import Mathlib

/-!
Verification model of the servo WebGPU command-processing actor
(`components/webgpu/lib.rs`).

The actor owns the wgpu `Global` context, a list of adapters and a list of
devices, and runs a dispatch loop (`WGPU::run`) over an inbound channel of
`WebGPURequest` messages.  The embedding below mirrors the dispatch loop as a
pure step function over an explicit actor state.  Channel sends are modelled
as emitted events; Rust panics (`Option::unwrap` on `None`, and
`CString::new(..).unwrap()` on byte strings containing a NUL byte) are
modelled as a dedicated `panicked` outcome that aborts the actor thread.
External capabilities (the wgpu-core `Global`: `pick_adapter`,
`adapter_get_info`, `adapter_request_device`) are modelled as function-valued
fields, and transport send failures as boolean oracles, so theorems quantify
over every backend behaviour and every send outcome.
-/

namespace Servo

/-- Byte strings (Rust `String`/`&[u8]` contents) are lists of byte values. -/
abbrev Bytes := List Nat

/-- Result of Rust `CString::new` on the bytes of a label or entry-point
string: `none` exactly when the byte string contains a NUL byte (the `Err`
case whose `unwrap` panics in the source). -/
def cstringNew (s : Bytes) : Option Bytes :=
  if s.contains 0 then none else some s

/-- The two panic sources reachable in `WGPU::run`: unwrapping a `None`
option, and unwrapping the `Err` of `CString::new` on a NUL-containing
string. -/
inductive PanicKind where
  | nulInString
  | unwrapNone
deriving DecidableEq

/-- Modelled from the spec: the downstream notification message type
`WebGPUMsg` is declared in the identity module (`identity.rs`), which is not
among the analysed sources.  Per the spec it carries lifecycle events
including at minimum an `Exit` notification and identifier-assignment
notifications; only `Exit` is sent by the dispatch loop itself. -/
inductive WebGPUMsg where
  | Exit
  | IdAssignment (id : Nat)
deriving DecidableEq

/-- `wgt::BufferDescriptor<String>`: the dispatch loop inspects only the
`label` field (for the native-string conversion); the remaining fields are
passed through to the backend opaquely and are collapsed into `rest`. -/
structure BufferDescriptor where
  label : Bytes
  rest : Nat
deriving DecidableEq

/-- `wgt::SamplerDescriptor<String>`: only `label` is inspected; other fields
are opaque to the dispatch loop. -/
structure SamplerDescriptor where
  label : Bytes
  rest : Nat
deriving DecidableEq

/-- `wgt::TextureDescriptor<String>`: only `label` is inspected; other fields
are opaque to the dispatch loop. -/
structure TextureDescriptor where
  label : Bytes
  rest : Nat
deriving DecidableEq

/-- `wgt::TextureViewDescriptor<String>`: only `label` is inspected; other
fields are opaque to the dispatch loop. -/
structure TextureViewDescriptor where
  label : Bytes
  rest : Nat
deriving DecidableEq

/-- The request message enum `WebGPURequest`.  Resource identifiers,
descriptors that the dispatch loop treats opaquely, and reply-channel
endpoints are modelled as `Nat` tokens; strings whose bytes matter (labels
and shader entry points, which undergo `CString` conversion) are `Bytes`. -/
inductive WebGPURequest where
  | CommandEncoderFinish (command_encoder_id : Nat)
  | CopyBufferToBuffer (command_encoder_id source_id source_offset destination_id
      destination_offset size : Nat)
  | CreateBindGroup (device_id bind_group_id bind_group_layout_id : Nat)
      (bindings : List Nat)
  | CreateBindGroupLayout (device_id bind_group_layout_id : Nat) (bindings : List Nat)
  | CreateBuffer (device_id buffer_id : Nat) (descriptor : BufferDescriptor)
  | CreateCommandEncoder (device_id command_encoder_id : Nat)
  | CreateComputePipeline (device_id compute_pipeline_id pipeline_layout_id
      program_id : Nat) (entry_point : Bytes)
  | CreatePipelineLayout (device_id pipeline_layout_id : Nat)
      (bind_group_layouts : List Nat)
  | CreateRenderPipeline (device_id render_pipeline_id pipeline_layout_id
      vertex_module : Nat) (vertex_entry_point : Bytes)
      (fragment_module : Option Nat) (fragment_entry_point : Option Bytes)
      (primitive_topology rasterization_state : Nat) (color_states : List Nat)
      (depth_stencil_state : Option Nat)
      (vertex_state : Nat × List (Nat × Nat × List Nat))
      (sample_count sample_mask : Nat) (alpha_to_coverage_enabled : Bool)
  | CreateSampler (device_id sampler_id : Nat) (descriptor : SamplerDescriptor)
  | CreateShaderModule (device_id program_id : Nat) (program : List Nat)
  | CreateTexture (device_id texture_id : Nat) (descriptor : TextureDescriptor)
  | CreateTextureView (texture_id texture_view_id : Nat)
      (descriptor : TextureViewDescriptor)
  | DestroyBuffer (buffer : Nat)
  | DestroyTexture (texture : Nat)
  | Exit (sender : Nat)
  | RequestAdapter (sender : Nat) (options : Nat) (ids : List Nat)
  | RequestDevice (sender : Nat) (adapter_id : Nat) (descriptor : Nat)
      (device_id : Nat)
  | RunComputePass (command_encoder_id : Nat) (pass_data : List Nat)
  | RunRenderPass (command_encoder_id : Nat) (pass_data : List Nat)
  | Submit (queue_id : Nat) (command_buffers : List Nat)
  | UnmapBuffer (device_id buffer_id : Nat) (array_buffer : List Nat)
deriving DecidableEq

/-- The response enum `WebGPUResponse`.  `channel` is the sender token of the
client handle embedded in an adapter reply; `descriptor` is the opaque
`DeviceDescriptor` echoed back by a device reply. -/
inductive WebGPUResponse where
  | RequestAdapter (adapter_name : String) (adapter_id : Nat) (channel : Nat)
  | RequestDevice (device_id : Nat) (queue_id : Nat) (descriptor : Nat)
deriving DecidableEq

/-- `WebGPUResponseResult = Result<WebGPUResponse, String>`. -/
abbrev WebGPUResponseResult := Except String WebGPUResponse

/-- Observable actions of one dispatch step: a reply-send attempt on a
privileged request's reply channel, a message-send attempt to the script
(downstream) channel, the release of the wgpu `Global` device context, an
acknowledgment-send attempt on an `Exit` ack channel, and a `warn!` log. -/
inductive Event where
  | reply (chan : Nat) (r : WebGPUResponseResult)
  | scriptMsg (m : WebGPUMsg)
  | dropGlobal
  | ack (chan : Nat)
  | warn (msg : String)

/-- The external wgpu-core `Global` capability, restricted to the operations
whose results the dispatch loop observes: adapter selection, adapter info,
and device creation.  All other backend calls have their results discarded
by the loop and need no model. -/
structure Global where
  pick_adapter : Nat → List Nat → Option Nat
  adapter_get_info : Nat → String
  adapter_request_device : Nat → Nat → Nat → Nat

/-- The actor state `WGPU`: its own inbound sender (clonable token), the
script/downstream sender token, the backend context, and the three
bookkeeping lists. -/
structure WGPU where
  sender : Nat
  script_sender : Nat
  global : Global
  adapters : List Nat
  devices : List Nat
  _invalid_adapters : List Nat

/-- Transport oracle: whether the script-channel send, the exit-ack send,
and the reply-channel send of the current step succeed.  The dispatch loop
only branches on these to decide whether to emit a `warn!` log. -/
structure Transport where
  script_send_ok : Bool
  ack_send_ok : Bool
  reply_send_ok : Bool

/-- Control outcome of one dispatch step: keep looping with a new state,
return from `run` (the state's fields at the moment of return), or panic
(thread aborted, no successor state). -/
inductive Control where
  | running (st : WGPU)
  | terminated (st : WGPU)
  | panicked (k : PanicKind)

/-- The successor state of a control outcome, when the thread survives. -/
def Control.state : Control → Option WGPU
  | .running st => some st
  | .terminated st => some st
  | .panicked _ => none

/-- Result of one dispatch step: control outcome plus emitted events. -/
structure StepResult where
  control : Control
  events : List Event

/-- The `warn!` log emitted when a send fails; empty when it succeeds. -/
def warnIf (ok : Bool) (msg : String) : List Event :=
  if ok then [] else [.warn msg]

/-- One iteration of the `WGPU::run` dispatch loop: the `match msg` body,
arm by arm in source order.  Fire-and-forget arms call the backend (result
discarded) and continue; arms that convert a label or entry-point string via
`CString::new(..).unwrap()` panic on a NUL byte; `Exit` notifies script,
drops the global, acks, and returns; `RequestAdapter` on failure sends an
error reply and returns, on success pushes the adapter and replies with a
clone of the actor's own sender; `RequestDevice` pushes the device and
replies, reusing the device id as the queue id. -/
def step (tr : Transport) (st : WGPU) (msg : WebGPURequest) : StepResult :=
  match msg with
  | .CommandEncoderFinish _ => ⟨.running st, []⟩
  | .CopyBufferToBuffer _ _ _ _ _ _ => ⟨.running st, []⟩
  | .CreateBindGroup _ _ _ _ => ⟨.running st, []⟩
  | .CreateBindGroupLayout _ _ _ => ⟨.running st, []⟩
  | .CreateBuffer _ _ descriptor =>
    match cstringNew descriptor.label with
    | none => ⟨.panicked .nulInString, []⟩
    | some _ => ⟨.running st, []⟩
  | .CreateCommandEncoder _ _ => ⟨.running st, []⟩
  | .CreateComputePipeline _ _ _ _ entry_point =>
    match cstringNew entry_point with
    | none => ⟨.panicked .nulInString, []⟩
    | some _ => ⟨.running st, []⟩
  | .CreatePipelineLayout _ _ _ => ⟨.running st, []⟩
  | .CreateRenderPipeline _ _ _ _ vertex_entry_point fragment_module
      fragment_entry_point _ _ _ _ _ _ _ _ =>
    match cstringNew vertex_entry_point with
    | none => ⟨.panicked .nulInString, []⟩
    | some _ =>
      match fragment_module with
      | some _ =>
        match fragment_entry_point with
        | none => ⟨.panicked .unwrapNone, []⟩
        | some fep =>
          match cstringNew fep with
          | none => ⟨.panicked .nulInString, []⟩
          | some _ => ⟨.running st, []⟩
      | none => ⟨.running st, []⟩
  | .CreateSampler _ _ descriptor =>
    match cstringNew descriptor.label with
    | none => ⟨.panicked .nulInString, []⟩
    | some _ => ⟨.running st, []⟩
  | .CreateShaderModule _ _ _ => ⟨.running st, []⟩
  | .CreateTexture _ _ descriptor =>
    match cstringNew descriptor.label with
    | none => ⟨.panicked .nulInString, []⟩
    | some _ => ⟨.running st, []⟩
  | .CreateTextureView _ _ descriptor =>
    match cstringNew descriptor.label with
    | none => ⟨.panicked .nulInString, []⟩
    | some _ => ⟨.running st, []⟩
  | .DestroyBuffer _ => ⟨.running st, []⟩
  | .DestroyTexture _ => ⟨.running st, []⟩
  | .Exit sender =>
    ⟨.terminated st,
      [Event.scriptMsg .Exit]
        ++ warnIf tr.script_send_ok "Failed to send WebGPUMsg::Exit to script"
        ++ [Event.dropGlobal, Event.ack sender]
        ++ warnIf tr.ack_send_ok "Failed to send response to WebGPURequest::Exit"⟩
  | .RequestAdapter sender options ids =>
    match st.global.pick_adapter options ids with
    | none =>
      ⟨.terminated st,
        [Event.reply sender (.error "Failed to get webgpu adapter")]
          ++ warnIf tr.reply_send_ok
              "Failed to send response to WebGPURequest::RequestAdapter"⟩
    | some adapter_id =>
      let st' := { st with adapters := st.adapters ++ [adapter_id] }
      ⟨.running st',
        [Event.reply sender (.ok (.RequestAdapter
            (st.global.adapter_get_info adapter_id) adapter_id st.sender))]
          ++ warnIf tr.reply_send_ok
              "Failed to send response to WebGPURequest::RequestAdapter"⟩
  | .RequestDevice sender adapter_id descriptor device_id =>
    let i := st.global.adapter_request_device adapter_id descriptor device_id
    let st' := { st with devices := st.devices ++ [i] }
    ⟨.running st',
      [Event.reply sender (.ok (.RequestDevice i i descriptor))]
        ++ warnIf tr.reply_send_ok
            "Failed to send response to WebGPURequest::RequestDevice"⟩
  | .RunComputePass _ _ => ⟨.running st, []⟩
  | .RunRenderPass _ _ => ⟨.running st, []⟩
  | .Submit _ _ => ⟨.running st, []⟩
  | .UnmapBuffer _ _ _ => ⟨.running st, []⟩

/-- Final outcome of the dispatch loop on a finite inbound queue: the queue
drained (channel closed, `recv` fails, loop falls through), the loop
returned (with the unread remainder of the queue), or the thread panicked
(with the unread remainder). -/
inductive RunResult where
  | drained (st : WGPU)
  | terminated (st : WGPU) (unread : List WebGPURequest)
  | panicked (k : PanicKind) (unread : List WebGPURequest)

/-- The `while let Ok(msg) = self.receiver.recv()` loop of `WGPU::run`,
run over a finite queue of inbound messages, collecting all emitted
events. -/
def runLoop (tr : Transport) (st : WGPU) :
    List WebGPURequest → RunResult × List Event
  | [] => (.drained st, [])
  | m :: rest =>
    match (step tr st m).control with
    | .running st' =>
      let r := runLoop tr st' rest
      (r.1, (step tr st m).events ++ r.2)
    | .terminated st' => (.terminated st' rest, (step tr st m).events)
    | .panicked k => (.panicked k rest, (step tr st m).events)

/-- The reply channel of a privileged request; `none` for fire-and-forget
variants and `Exit`. -/
def replyChan : WebGPURequest → Option Nat
  | .RequestAdapter sender _ _ => some sender
  | .RequestDevice sender _ _ _ => some sender
  | _ => none

/-- A fire-and-forget command: any variant other than the two privileged
requests and `Exit`. -/
def fireAndForget : WebGPURequest → Bool
  | .RequestAdapter _ _ _ => false
  | .RequestDevice _ _ _ _ => false
  | .Exit _ => false
  | _ => true

/-- The reply-send attempts among a step's events, as (channel, payload)
pairs. -/
def replyEvents (es : List Event) : List (Nat × WebGPUResponseResult) :=
  es.filterMap fun e =>
    match e with
    | .reply c r => some (c, r)
    | _ => none

/-- The client handle struct `WebGPU`: a clonable sender endpoint, modelled
by its sender token. -/
structure WebGPUHandle where
  sender : Nat
deriving DecidableEq

/-- Environment of one call to `WebGPU::new`: the `dom.webgpu.enabled` pref,
the outcomes of the two `ipc::channel()` calls (each yielding a
(sender, receiver) pair of endpoint tokens on success), and the outcome of
spawning the WGPU thread. -/
structure NewEnv where
  pref_webgpu_enabled : Bool
  channel1 : Option (Nat × Nat)
  channel2 : Option (Nat × Nat)
  spawn_ok : Bool

/-- `WebGPU::new`: returns `none` if the pref is disabled, either channel
fails, or the spawn fails (logging a warning in the latter three cases), and
otherwise the client handle over the first channel's sender paired with the
second channel's receiver.  The second component collects the `warn!`
logs. -/
def WebGPUHandle.new (env : NewEnv) : Option (WebGPUHandle × Nat) × List String :=
  if !env.pref_webgpu_enabled then (none, [])
  else
    match env.channel1 with
    | none => (none, ["Failed to create sender and receiver for WGPU thread"])
    | some (sender, _receiver) =>
      match env.channel2 with
      | none => (none, ["Failed to create receiver and sender for WGPU thread"])
      | some (_script_sender, script_recv) =>
        if !env.spawn_ok then (none, ["Failed to spwan WGPU thread"])
        else (some (⟨sender⟩, script_recv), [])

/-- A backend in which no adapter ever matches (`pick_adapter` returns
`None`), for exercising the `RequestAdapter` failure branch. -/
def noAdapterGlobal : Global :=
  { pick_adapter := fun _ _ => none
    adapter_get_info := fun _ => "adapter"
    adapter_request_device := fun _ _ device_id => device_id }

/-- A backend in which adapter 42 always matches. -/
def someAdapterGlobal : Global :=
  { pick_adapter := fun _ _ => some 42
    adapter_get_info := fun _ => "gpu0"
    adapter_request_device := fun _ _ device_id => device_id }

/-- A fresh actor state over the adapter-less backend. -/
def st0 : WGPU :=
  { sender := 0, script_sender := 1, global := noAdapterGlobal,
    adapters := [], devices := [], _invalid_adapters := [] }

/-- A fresh actor state over the backend that always finds adapter 42. -/
def st1 : WGPU :=
  { sender := 8, script_sender := 1, global := someAdapterGlobal,
    adapters := [], devices := [], _invalid_adapters := [] }

/-- A transport in which every send succeeds. -/
def tr0 : Transport := ⟨true, true, true⟩

/-- Warn logs contribute no reply events. -/
theorem replyEvents_append_warnIf (es : List Event) (b : Bool) (m : String) :
    replyEvents (es ++ warnIf b m) = replyEvents es := by
  cases b <;> simp [warnIf, replyEvents]

/-- C1: the claim says a failed `RequestAdapter` yields exactly one string
error reply and the loop stays `Running`, processing subsequent messages.
On the code, the failure branch sends the single error reply but then
executes `return`, terminating the dispatch loop: a queued `Exit` message is
never read. -/
theorem requestAdapter_failure_replies_once_but_kills_loop :
    runLoop tr0 st0 [.RequestAdapter 5 0 [1, 2], .Exit 9] =
      (.terminated st0 [.Exit 9],
        [Event.reply 5 (.error "Failed to get webgpu adapter")]) := rfl

/-- C2: a label string containing an interior NUL byte (here bytes
`[97, 0, 98]`, i.e. "a\x00b") makes each of `CreateBuffer`,
`CreateSampler`, `CreateTexture` and `CreateTextureView` panic in
`CString::new(..).unwrap()`, aborting the actor thread instead of logging an
error and continuing. -/
theorem create_with_nul_label_panics :
    (step tr0 st0 (.CreateBuffer 1 2 ⟨[97, 0, 98], 0⟩)).control
        = .panicked .nulInString
    ∧ (step tr0 st0 (.CreateSampler 1 3 ⟨[97, 0, 98], 0⟩)).control
        = .panicked .nulInString
    ∧ (step tr0 st0 (.CreateTexture 1 4 ⟨[97, 0, 98], 0⟩)).control
        = .panicked .nulInString
    ∧ (step tr0 st0 (.CreateTextureView 4 5 ⟨[97, 0, 98], 0⟩)).control
        = .panicked .nulInString :=
  ⟨rfl, rfl, rfl, rfl⟩

/-- C3: the claim says `Running → Terminated` happens exclusively on `Exit`.
On the code, dispatching a `RequestAdapter` that finds no adapter also
terminates the loop (`return` in the failure branch), refuting exclusivity. -/
theorem non_exit_message_terminates_loop :
    (step tr0 st0 (.RequestAdapter 7 0 [])).control = .terminated st0 := rfl

/-- C5: processing `Exit` emits, in order, the downstream `Exit`
notification, the release of the device context, and a single
acknowledgment on the caller-supplied channel; a failed script send or ack
send only inserts a `warn!` log at its place; the step terminates the loop
regardless, and any messages still queued behind `Exit` are never read. -/
theorem exit_two_phase_shutdown (tr : Transport) (st : WGPU) (ack_chan : Nat)
    (rest : List WebGPURequest) :
    ∃ w1 w2,
      (step tr st (.Exit ack_chan)).events
          = [Event.scriptMsg .Exit] ++ w1
            ++ [Event.dropGlobal, Event.ack ack_chan] ++ w2
      ∧ (∀ e ∈ w1, ∃ s, e = Event.warn s)
      ∧ (∀ e ∈ w2, ∃ s, e = Event.warn s)
      ∧ (step tr st (.Exit ack_chan)).control = .terminated st
      ∧ runLoop tr st (.Exit ack_chan :: rest)
          = (.terminated st rest, (step tr st (.Exit ack_chan)).events) := by
  refine ⟨warnIf tr.script_send_ok "Failed to send WebGPUMsg::Exit to script",
    warnIf tr.ack_send_ok "Failed to send response to WebGPURequest::Exit",
    rfl, ?_, ?_, rfl, rfl⟩
  · cases h : tr.script_send_ok <;> simp [warnIf]
  · cases h : tr.ack_send_ok <;> simp [warnIf]

/-- C6: every `RequestDevice` dispatch replies with a successful payload in
which the queue identifier is numerically identical to the device identifier
and the request's descriptor is echoed back. -/
theorem request_device_queue_id_equals_device_id (tr : Transport) (st : WGPU)
    (sender adapter_id descriptor device_id : Nat) :
    ∃ i,
      (step tr st (.RequestDevice sender adapter_id descriptor device_id)).events
        = [Event.reply sender (.ok (.RequestDevice i i descriptor))]
          ++ warnIf tr.reply_send_ok
              "Failed to send response to WebGPURequest::RequestDevice" :=
  ⟨st.global.adapter_request_device adapter_id descriptor device_id, rfl⟩

/-- C4: every dispatched privileged request (`RequestAdapter` or
`RequestDevice`) triggers exactly one reply-send attempt, on the request's
own reply channel, whatever the backend and transport do; the payload is
either an `Ok` response or a string error. -/
theorem privileged_request_single_reply (tr : Transport) (st : WGPU)
    (msg : WebGPURequest) (chan : Nat) (h : replyChan msg = some chan) :
    ∃ r, replyEvents (step tr st msg).events = [(chan, r)]
      ∧ ((∃ v, r = Except.ok v) ∨ (∃ s, r = Except.error s)) := by
  cases msg <;> simp only [replyChan, Option.some.injEq, reduceCtorEq] at h
  case RequestAdapter sender options ids =>
    subst h
    cases hp : st.global.pick_adapter options ids with
    | none =>
      refine ⟨Except.error "Failed to get webgpu adapter", ?_, Or.inr ⟨_, rfl⟩⟩
      simp only [step, hp]
      rw [replyEvents_append_warnIf]
      rfl
    | some a =>
      refine ⟨Except.ok (.RequestAdapter (st.global.adapter_get_info a) a
        st.sender), ?_, Or.inl ⟨_, rfl⟩⟩
      simp only [step, hp]
      rw [replyEvents_append_warnIf]
      rfl
  case RequestDevice sender adapter_id descriptor device_id =>
    subst h
    refine ⟨Except.ok (.RequestDevice
      (st.global.adapter_request_device adapter_id descriptor device_id)
      (st.global.adapter_request_device adapter_id descriptor device_id)
      descriptor), ?_, Or.inl ⟨_, rfl⟩⟩
    simp only [step]
    rw [replyEvents_append_warnIf]
    rfl

/-- Witness for C4 at a concrete `RequestAdapter` on the adapter-less
backend. -/
theorem privileged_request_single_reply_witness :
    ∃ r, replyEvents (step tr0 st0 (.RequestAdapter 11 0 [])).events = [(11, r)]
      ∧ ((∃ v, r = Except.ok v) ∨ (∃ s, r = Except.error s)) :=
  privileged_request_single_reply tr0 st0 (.RequestAdapter 11 0 []) 11 rfl

/-- C7: `WebGPU::new` returns `None` exactly when the webgpu pref is
disabled, either `ipc::channel()` call fails, or the thread spawn fails;
all failures with the pref enabled are logged; and on success it returns the
client handle over the first channel's sender paired with the second
channel's receiver. -/
theorem webgpu_new_construction (env : NewEnv) :
    ((WebGPUHandle.new env).1 = none ↔
      env.pref_webgpu_enabled = false ∨ env.channel1 = none
        ∨ env.channel2 = none ∨ env.spawn_ok = false)
    ∧ (env.pref_webgpu_enabled = true → (WebGPUHandle.new env).1 = none →
        (WebGPUHandle.new env).2 ≠ [])
    ∧ (∀ s r ss sr, env.pref_webgpu_enabled = true →
        env.channel1 = some (s, r) → env.channel2 = some (ss, sr) →
        env.spawn_ok = true →
        WebGPUHandle.new env = (some (⟨s⟩, sr), [])) := by
  obtain ⟨p, c1, c2, sp⟩ := env
  cases p <;> rcases c1 with _ | ⟨s1, r1⟩ <;> rcases c2 with _ | ⟨s2, r2⟩ <;>
    cases sp <;> simp [WebGPUHandle.new]
  intro s r ss sr h1 h2 h3 h4
  exact ⟨h1, h4⟩

/-- Witness for C7 on a fully successful construction environment. -/
theorem webgpu_new_construction_witness :
    WebGPUHandle.new ⟨true, some (3, 4), some (5, 6), true⟩
      = (some (⟨3⟩, 6), []) :=
  (webgpu_new_construction ⟨true, some (3, 4), some (5, 6), true⟩).2.2
    3 4 5 6 rfl rfl rfl rfl

/-- C8: a successful `RequestAdapter` appends exactly the picked adapter to
the live adapter list (devices and invalid adapters untouched) and the reply
carries a client handle whose sender is the actor's own inbound sender; a
failed `RequestAdapter` appends nothing. -/
theorem request_adapter_success_appends_one_adapter (tr : Transport)
    (st : WGPU) (sender options : Nat) (ids : List Nat) :
    (∀ a, st.global.pick_adapter options ids = some a →
      ∃ st',
        (step tr st (.RequestAdapter sender options ids)).control
            = .running st'
        ∧ st'.adapters = st.adapters ++ [a]
        ∧ st'.devices = st.devices
        ∧ st'._invalid_adapters = st._invalid_adapters
        ∧ st'.sender = st.sender
        ∧ replyEvents (step tr st (.RequestAdapter sender options ids)).events
            = [(sender, .ok (.RequestAdapter (st.global.adapter_get_info a) a
                st.sender))])
    ∧ (st.global.pick_adapter options ids = none →
        ∃ st',
          (step tr st (.RequestAdapter sender options ids)).control
              = .terminated st'
          ∧ st'.adapters = st.adapters) := by
  constructor
  · intro a ha
    refine ⟨{ st with adapters := st.adapters ++ [a] }, ?_, rfl, rfl, rfl, rfl,
      ?_⟩
    · simp [step, ha]
    · simp only [step, ha]
      rw [replyEvents_append_warnIf]
      rfl
  · intro ha
    exact ⟨st, by simp [step, ha], rfl⟩

/-- Witness for C8 on the backend that always picks adapter 42. -/
theorem request_adapter_success_appends_one_adapter_witness :
    ∃ st',
      (step tr0 st1 (.RequestAdapter 2 0 [])).control = .running st'
      ∧ st'.adapters = st1.adapters ++ [42]
      ∧ st'.devices = st1.devices
      ∧ st'._invalid_adapters = st1._invalid_adapters
      ∧ st'.sender = st1.sender
      ∧ replyEvents (step tr0 st1 (.RequestAdapter 2 0 [])).events
          = [(2, .ok (.RequestAdapter (st1.global.adapter_get_info 42) 42
              st1.sender))] :=
  (request_adapter_success_appends_one_adapter tr0 st1 2 0 []).1 42 rfl

/-- C9: `CreateRenderPipeline` has the undocumented precondition that a
`Some` fragment module comes with a `Some` fragment entry point: with
`fragment_module = Some` and `fragment_entry_point = None` the dispatch
panics (on the `None` unwrap when it reaches the fragment stage, and in any
case by some panic), while under the precondition the `None`-unwrap panic is
unreachable. -/
theorem render_pipeline_fragment_option_pair (tr : Transport) (st : WGPU)
    (d rp pl vm : Nat) (vep : Bytes) (fm : Option Nat) (fep : Option Bytes)
    (pt rs : Nat) (cs : List Nat) (dss : Option Nat)
    (vs : Nat × List (Nat × Nat × List Nat)) (sc sm : Nat) (a2c : Bool) :
    (fm.isSome = true → fep = none → 0 ∉ vep →
      (step tr st (.CreateRenderPipeline d rp pl vm vep fm fep pt rs cs dss
          vs sc sm a2c)).control = .panicked .unwrapNone)
    ∧ (fm.isSome = true → fep = none →
        ∃ k, (step tr st (.CreateRenderPipeline d rp pl vm vep fm fep pt rs
            cs dss vs sc sm a2c)).control = .panicked k)
    ∧ ((fm.isSome = true → fep.isSome = true) →
        (step tr st (.CreateRenderPipeline d rp pl vm vep fm fep pt rs cs dss
            vs sc sm a2c)).control ≠ .panicked .unwrapNone) := by
  refine ⟨?_, ?_, ?_⟩
  · intro h1 h2 h3
    rcases fm with _ | x
    · simp at h1
    · subst h2
      simp [step, cstringNew, h3]
  · intro h1 h2
    rcases fm with _ | x
    · simp at h1
    · subst h2
      by_cases h3 : 0 ∈ vep
      · exact ⟨.nulInString, by simp [step, cstringNew, h3]⟩
      · exact ⟨.unwrapNone, by simp [step, cstringNew, h3]⟩
  · intro hpre
    rcases fm with _ | x
    · by_cases h3 : 0 ∈ vep <;> simp [step, cstringNew, h3]
    · rcases fep with _ | f
      · simp at hpre
      · by_cases h3 : 0 ∈ vep <;> by_cases h4 : 0 ∈ f <;>
          simp [step, cstringNew, h3, h4]

/-- Witness for C9: a concrete `CreateRenderPipeline` with a fragment module
but no fragment entry point panics on the `None` unwrap. -/
theorem render_pipeline_fragment_option_pair_witness :
    (step tr0 st0 (.CreateRenderPipeline 1 2 3 4 [109] (some 1) none 0 0 []
        none (0, []) 1 0 false)).control = .panicked .unwrapNone :=
  (render_pipeline_fragment_option_pair tr0 st0 1 2 3 4 [109] (some 1) none
    0 0 [] none (0, []) 1 0 false).1 rfl rfl (by decide)

/-- C10: whenever a dispatch step survives (does not panic), the
invalid-adapter list is unchanged, the adapter list changes only for
`RequestAdapter` messages and the device list only for `RequestDevice`
messages; in particular every fire-and-forget command leaves all three lists
unchanged. -/
theorem fire_and_forget_frame_conditions (tr : Transport) (st : WGPU)
    (msg : WebGPURequest) :
    (fireAndForget msg = true →
      ∀ st', (step tr st msg).control.state = some st' →
        st'.adapters = st.adapters ∧ st'.devices = st.devices
          ∧ st'._invalid_adapters = st._invalid_adapters)
    ∧ (∀ st', (step tr st msg).control.state = some st' →
        st'._invalid_adapters = st._invalid_adapters
        ∧ (st'.adapters ≠ st.adapters →
            ∃ s o i, msg = WebGPURequest.RequestAdapter s o i)
        ∧ (st'.devices ≠ st.devices →
            ∃ s a dd di, msg = WebGPURequest.RequestDevice s a dd di)) := by
  have key : ∀ st', (step tr st msg).control.state = some st' →
      st'._invalid_adapters = st._invalid_adapters
      ∧ (st'.adapters ≠ st.adapters →
          ∃ s o i, msg = WebGPURequest.RequestAdapter s o i)
      ∧ (st'.devices ≠ st.devices →
          ∃ s a dd di, msg = WebGPURequest.RequestDevice s a dd di) := by
    intro st' h
    cases msg <;> simp only [step] at h <;> (repeat' split at h) <;>
      simp only [Control.state, Option.some.injEq, reduceCtorEq] at h <;>
      (try subst h) <;>
      first
        | exact ⟨rfl, fun hne => absurd rfl hne, fun hne => absurd rfl hne⟩
        | exact ⟨rfl, fun _ => ⟨_, _, _, rfl⟩, fun hne => absurd rfl hne⟩
        | exact ⟨rfl, fun hne => absurd rfl hne, fun _ => ⟨_, _, _, _, rfl⟩⟩
  refine ⟨?_, key⟩
  intro hff st' h
  obtain ⟨hi, ha, hd⟩ := key st' h
  refine ⟨?_, ?_, hi⟩
  · by_contra hne
    obtain ⟨s, o, i, rfl⟩ := ha hne
    simp [fireAndForget] at hff
  · by_contra hne
    obtain ⟨s, a, dd, di, rfl⟩ := hd hne
    simp [fireAndForget] at hff

/-- Witness for C10 at a concrete fire-and-forget `Submit` command. -/
theorem fire_and_forget_frame_conditions_witness :
    st0.adapters = st0.adapters ∧ st0.devices = st0.devices
      ∧ st0._invalid_adapters = st0._invalid_adapters :=
  (fire_and_forget_frame_conditions tr0 st0 (.Submit 1 [2])).1 rfl st0 rfl

end Servo
